import Mathlib

/-!
# Verification of the discovery-crawler scrape manager

Shallow embedding of the scrape job scheduler and crawl/extraction pipeline
(`scrapeManager.js`, given as `src/unnamed/part_003`).  JavaScript objects
become Lean structures, the in-memory maps (`activeJobs`, `completedJobs`)
become association lists keyed by `jobId`, and the asynchronous worker body
of `processJob` is split into segments delimited by its `await` points so
that scheduler operations (`cancelJob`, `queueJob`, dispatch) may interleave
between segments exactly as the single-threaded event loop allows.
External collaborators (the database repository, the socket transport and
the discovery/extractor services) are modelled by explicit outcome
parameters: a `Bool` for a store write that may throw, an `Option` for an
extractor invocation that may throw, and a list of pages for discovery.
-/

namespace DiscoveryCrawler

/-- Job priority; `jobQueue` has exactly the three tiers `high`, `normal`,
`low` (part_003 lines 24-28).  The string validation in `init`
(lines 53-55) is rendered vacuous by the closed type. -/
inductive Priority where
  | high
  | normal
  | low
deriving DecidableEq, Repr

/-- Job status strings used by the manager:
`queued`, `processing`, `complete`, `failed`, `cancelled`. -/
inductive JStatus where
  | queued
  | processing
  | complete
  | failed
  | cancelled
deriving DecidableEq, Repr

/-- In-memory job object (the mutable record shared by the queue, the
active/completed maps and the worker). -/
structure Job where
  jobId : String
  domain : String
  priority : Priority
  maxPages : Option Nat
  status : JStatus
  progress : Nat
  message : String
  startedAt : Option String
  completedAt : Option String
deriving DecidableEq, Repr

/-- The `meta` object inside `siteStructure`; in the minimal-results object it
has `description` and `keywords`, in the combine-time default it is `{}`
(so both fields are optional). -/
structure MetaData where
  description : Option String
  keywords : Option String
deriving DecidableEq, Repr

/-- The `siteStructure` section of the general data. -/
structure SiteStructure where
  title : String
  meta : MetaData
  sections : List String
deriving DecidableEq, Repr

/-- The `navigationStructure` of the general data (`mainNav` / `footerNav`). -/
structure NavigationStructure where
  mainNav : List String
  footerNav : List String
deriving DecidableEq, Repr

/-- Output section of the general extractor. -/
structure GeneralData where
  siteStructure : SiteStructure
  prominentLinks : List String
  navigationStructure : NavigationStructure
deriving DecidableEq, Repr

/-- Output section of the blog extractor. -/
structure BlogData where
  hasBlog : Bool
  blogUrl : Option String
  articles : List String
deriving DecidableEq, Repr

/-- Output section of the enhanced image extractor.  The minimal-results
object (lines 234-247) carries eight extra category lists that the
combine-time default (lines 458-463) does not, hence those are optional. -/
structure ImagesData where
  all : List String
  byCategory : List (String × List String)
  heroImages : List String
  brandImages : List String
  productImages : Option (List String)
  contentImages : Option (List String)
  backgroundImages : Option (List String)
  bannerImages : Option (List String)
  galleryImages : Option (List String)
  socialProofImages : Option (List String)
  teamImages : Option (List String)
  otherImages : Option (List String)
deriving DecidableEq, Repr

/-- Output section of the color extractor. -/
structure ColorsData where
  primaryColor : String
  secondaryColors : List String
  palette : List String
deriving DecidableEq, Repr

/-- Output section of the social media extractor. -/
structure SocialMediaData where
  links : List (String × String)
  content : List (String × String)
deriving DecidableEq, Repr

/-- Output section of the ISBN extractor. -/
structure IsbnData where
  isbns : List String
  isbnImages : List String
deriving DecidableEq, Repr

/-- The per-domain aggregate result.  `pageCount` is present only in the
full-pipeline result (line 440), not in the minimal result (lines 211-257);
`socialMedia` is present only in the full-pipeline result (line 469). -/
structure AggregateResult where
  domain : String
  scrapedAt : String
  pageCount : Option Nat
  general : GeneralData
  blog : BlogData
  images : ImagesData
  colors : ColorsData
  socialMedia : Option SocialMediaData
  isbn : IsbnData
deriving DecidableEq, Repr

/-- Fallback `general` section used in `results` when the general extractor
failed (lines 441-452): placeholder title equal to the bare domain, empty
meta, empty link and navigation lists. -/
def defaultGeneral (domain : String) : GeneralData :=
  { siteStructure :=
      { title := domain
        meta := { description := none, keywords := none }
        sections := [] }
    prominentLinks := []
    navigationStructure := { mainNav := [], footerNav := [] } }

/-- Fallback `blog` section (lines 453-457). -/
def defaultBlog : BlogData :=
  { hasBlog := false, blogUrl := none, articles := [] }

/-- Fallback `images` section (lines 458-463): only the four base fields. -/
def defaultImages : ImagesData :=
  { all := [], byCategory := [], heroImages := [], brandImages := []
    productImages := none, contentImages := none, backgroundImages := none
    bannerImages := none, galleryImages := none, socialProofImages := none
    teamImages := none, otherImages := none }

/-- Fallback `colors` section (lines 464-468): the fixed default palette. -/
def defaultColors : ColorsData :=
  { primaryColor := "#4285f4"
    secondaryColors := ["#ea4335", "#fbbc05", "#34a853"]
    palette := ["#4285f4", "#ea4335", "#fbbc05", "#34a853", "#ffffff", "#000000"] }

/-- Fallback `socialMedia` section (lines 469-472). -/
def defaultSocialMedia : SocialMediaData :=
  { links := [], content := [] }

/-- Fallback `isbn` section (lines 473-476). -/
def defaultIsbn : IsbnData :=
  { isbns := [], isbnImages := [] }

/-- The `minimalResults` object synthesized when discovery returned zero
pages (part_003 lines 211-257), built only from the domain name and the
current timestamp. -/
def minimalResults (domain : String) (now : String) : AggregateResult :=
  { domain := domain
    scrapedAt := now
    pageCount := none
    general :=
      { siteStructure :=
          { title := domain ++ " Website"
            meta := { description := some ("Website for " ++ domain)
                      keywords := some domain }
            sections := [] }
        prominentLinks := []
        navigationStructure := { mainNav := [], footerNav := [] } }
    blog := { hasBlog := false, blogUrl := none, articles := [] }
    images :=
      { all := [], byCategory := [], heroImages := [], brandImages := []
        productImages := some [], contentImages := some []
        backgroundImages := some [], bannerImages := some []
        galleryImages := some [], socialProofImages := some []
        teamImages := some [], otherImages := some [] }
    colors :=
      { primaryColor := "#4285f4"
        secondaryColors := ["#ea4335", "#fbbc05", "#34a853"]
        palette := ["#4285f4", "#ea4335", "#fbbc05", "#34a853", "#ffffff", "#000000"] }
    socialMedia := none
    isbn := { isbns := [], isbnImages := [] } }

/-- Per-extractor invocation outcomes in `processJob` (lines 358-422), in
source order.  `none` means the call `await ... extract` of the extractor threw and
the surrounding `try/catch` logged the error, leaving the local variable
`null`; `some x` means it returned `x`. -/
structure ExtractorOutcomes where
  enhancedImageData : Option ImagesData
  socialMediaData : Option SocialMediaData
  blogData : Option BlogData
  colorData : Option ColorsData
  generalData : Option GeneralData
  isbnData : Option IsbnData
deriving DecidableEq, Repr

/-- Number of extractor invocations that threw. -/
def ExtractorOutcomes.failureCount (o : ExtractorOutcomes) : Nat :=
  (if o.enhancedImageData.isNone then 1 else 0) +
  (if o.socialMediaData.isNone then 1 else 0) +
  (if o.blogData.isNone then 1 else 0) +
  (if o.colorData.isNone then 1 else 0) +
  (if o.generalData.isNone then 1 else 0) +
  (if o.isbnData.isNone then 1 else 0)

/-- The `results` object assembled after the extractor phase
(part_003 lines 437-477): each section is the output of the extractor when it
succeeded (`x || default` with a non-null `x`) and the documented default
otherwise. -/
def combineResults (domain : String) (now : String) (pageCount : Nat)
    (o : ExtractorOutcomes) : AggregateResult :=
  { domain := domain
    scrapedAt := now
    pageCount := some pageCount
    general := o.generalData.getD (defaultGeneral domain)
    blog := o.blogData.getD defaultBlog
    images := o.enhancedImageData.getD defaultImages
    colors := o.colorData.getD defaultColors
    socialMedia := some (o.socialMediaData.getD defaultSocialMedia)
    isbn := o.isbnData.getD defaultIsbn }

/-- One `job-update` socket event as emitted by `emitSocketEvent`
(part_003 lines 73-81): room `job-{jobId}` and the payload
`{jobId, status, progress, message}`. -/
structure SEvent where
  room : String
  jobId : String
  status : JStatus
  progress : Nat
  message : String
deriving DecidableEq, Repr

/-- The event built from the current fields of a job, addressed to its
room (the pattern at lines 167-172 and every later emission site). -/
def jobEvent (job : Job) : SEvent :=
  { room := "job-" ++ job.jobId
    jobId := job.jobId
    status := job.status
    progress := job.progress
    message := job.message }

/-- Insert-or-replace on an association list, mirroring `Map.set`. -/
def mapSet {α : Type} (m : List (String × α)) (k : String) (v : α) :
    List (String × α) :=
  match m with
  | [] => [(k, v)]
  | (k', v') :: rest =>
    if k' = k then (k, v) :: rest else (k', v') :: mapSet rest k v

/-- Lookup on an association list, mirroring `Map.get`. -/
def mapGet {α : Type} (m : List (String × α)) (k : String) : Option α :=
  match m with
  | [] => none
  | (k', v) :: rest => if k' = k then some v else mapGet rest k

/-- Add an id to an id list unless present (`Map.set` on a fresh key keeps
one entry per key; re-setting an existing key does not grow the map). -/
def addId (l : List String) (id : String) : List String :=
  if id ∈ l then l else l ++ [id]

/-- Remove the first occurrence of an id (`Map.delete`, and the
`findIndex`/`splice(index, 1)` pattern of `cancelJob` lines 571-577). -/
def removeFirst (l : List String) (id : String) : List String :=
  match l with
  | [] => []
  | x :: rest => if x = id then rest else x :: removeFirst rest id

/-- Whole in-memory state of the scrape manager.  The JavaScript job
objects are aliased (queue entries, map entries and the local variable of the worker holding
`job` all point at one object), so the model keeps every job object in a
single heap `jobs` keyed by `jobId`, and the queue tiers and the
active/completed maps hold ids.  `db` mirrors the job-status rows written
through `domainDataRepository.updateJobStatus`/`saveJob`, `results` the
rows written through `saveResults`, and `domainData` the `domain_info.data`
column written at lines 480-491.  `events` is the log of successfully
published socket events and `startedOrder` records each `processJob`
start, in order. -/
structure ManagerState where
  jobs : List (String × Job)
  high : List String
  normal : List String
  low : List String
  active : List String
  completed : List String
  events : List SEvent
  startedOrder : List String
  db : List (String × JStatus)
  results : List (String × AggregateResult)
  domainData : List (String × AggregateResult)
deriving DecidableEq, Repr

/-- The state at module load: empty queue tiers (lines 24-28) and empty
maps (lines 30-31). -/
def initialState : ManagerState :=
  { jobs := [], high := [], normal := [], low := [], active := []
    completed := [], events := [], startedOrder := [], db := []
    results := [], domainData := [] }

/-- Function `emitSocketEvent` (lines 73-81): the emit is wrapped in `try/catch`
and guarded by `if (global.io)`, so a missing transport or a throwing
publish (`publishOk = false`) leaves the state unchanged and never
propagates an exception. -/
def emitSocketEvent (publishOk : Bool) (ev : SEvent) (s : ManagerState) :
    ManagerState :=
  if publishOk then { s with events := s.events ++ [ev] } else s

/-- Append a job id to the tier matching its priority
(`jobQueue[job.priority].push(job)`, line 90 and line 57). -/
def pushTier (s : ManagerState) (p : Priority) (id : String) : ManagerState :=
  match p with
  | .high => { s with high := s.high ++ [id] }
  | .normal => { s with normal := s.normal ++ [id] }
  | .low => { s with low := s.low ++ [id] }

/-- Tier scan of `processNextJob` (lines 116-124): shift from `high`,
else from `normal`, else from `low`. -/
def popNext (s : ManagerState) : Option (String × ManagerState) :=
  match s.high with
  | id :: rest => some (id, { s with high := rest })
  | [] =>
    match s.normal with
    | id :: rest => some (id, { s with normal := rest })
    | [] =>
      match s.low with
      | id :: rest => some (id, { s with low := rest })
      | [] => none

/-- Total number of queued ids across the three tiers. -/
def queueSize (s : ManagerState) : Nat :=
  s.high.length + s.normal.length + s.low.length

/-- The synchronous prefix of `processJob` (lines 140-145), which runs
before its first `await`: mark the job `processing`, stamp `startedAt`,
and put it in `activeJobs`. -/
def startJob (now : String) (id : String) (s : ManagerState) : ManagerState :=
  match mapGet s.jobs id with
  | none => s
  | some job =>
    let job := { job with status := .processing, startedAt := some now }
    { s with jobs := mapSet s.jobs id job
             active := addId s.active id
             startedOrder := s.startedOrder ++ [id] }

theorem popNext_queueSize {s s1 : ManagerState} {id : String}
    (h : popNext s = some (id, s1)) : queueSize s1 < queueSize s := by
  unfold popNext at h
  rcases hh : s.high with _ | ⟨x, xs⟩ <;> rw [hh] at h
  · rcases hn : s.normal with _ | ⟨y, ys⟩ <;> rw [hn] at h
    · rcases hl : s.low with _ | ⟨z, zs⟩ <;> rw [hl] at h
      · exact absurd h (by simp)
      · cases h; simp [queueSize, hh, hn, hl]
    · cases h; simp [queueSize, hh, hn]
  · cases h; simp [queueSize, hh]

theorem startJob_queueSize (now : String) (id : String) (s : ManagerState) :
    queueSize (startJob now id s) = queueSize s := by
  unfold startJob
  cases mapGet s.jobs id <;> simp [queueSize]

/-- Recursion body of `processNextJob` (lines 109-135): return at once
when at capacity, otherwise pop the next id by strict tier priority, start
it, and recurse while capacity remains.  The structural `fuel` only bounds
the recursion depth: every recursive call removes one id from the queue,
so `fuel = queueSize s` makes the zero-fuel case unreachable (an empty
queue pops nothing). -/
def processNextJobAux (maxConcurrent : Nat) (now : String) :
    Nat → ManagerState → ManagerState
  | 0, s => s
  | fuel + 1, s =>
    if s.active.length ≥ maxConcurrent then s
    else
      match popNext s with
      | none => s
      | some (id, s1) =>
        let s2 := startJob now id s1
        if s2.active.length < maxConcurrent then
          processNextJobAux maxConcurrent now fuel s2
        else s2

/-- Function `processNextJob` (lines 109-135). -/
def processNextJob (maxConcurrent : Nat) (now : String) (s : ManagerState) :
    ManagerState :=
  processNextJobAux maxConcurrent now (queueSize s) s

/-- Response shape of `queueJob` (lines 97-101). -/
structure SubmitResponse where
  jobId : String
  status : JStatus
  estimatedTime : String
deriving DecidableEq, Repr

/-- Function `queueJob` (lines 84-106).  `saveOk` is the outcome of the
`domainDataRepository.saveJob` write: when it throws, the `catch` rethrows
`Failed to queue job` before the job is pushed onto any tier, so the state
is unchanged.  On success the job is recorded, pushed onto the tier of its
priority, and dispatch runs when below capacity (line 93). -/
def queueJob (maxConcurrent : Nat) (saveOk : Bool) (now : String) (job : Job)
    (s : ManagerState) : ManagerState × Except String SubmitResponse :=
  if !saveOk then (s, .error "Failed to queue job: store write failed")
  else
    let s := { s with db := mapSet s.db job.jobId job.status
                      jobs := mapSet s.jobs job.jobId job }
    let s := pushTier s job.priority job.jobId
    let s := if s.active.length < maxConcurrent then processNextJob maxConcurrent now s
             else s
    (s, .ok { jobId := job.jobId, status := job.status, estimatedTime := "30s" })

/-- Worker segment of `processJob` from its first `await` up to the
`discoverPages` call (lines 148-198): the `updateJobStatus` write (its
failure is caught at lines 150-152 and only logged), the `canResumeJob`
query (read-only), the move to progress 10 / `Discovering pages`, the
event emission, and the `domain_info` upsert (errors caught at 194-196).
`updOk` is the status-write outcome and `publishOk` the socket outcome. -/
def workerBegin (updOk publishOk : Bool) (id : String) (s : ManagerState) :
    ManagerState :=
  match mapGet s.jobs id with
  | none => s
  | some job =>
    let s := if updOk then { s with db := mapSet s.db id .processing } else s
    let job := { job with progress := 10, message := "Discovering pages" }
    let s := { s with jobs := mapSet s.jobs id job }
    emitSocketEvent publishOk (jobEvent job) s

/-- Options with which `processJob` invokes
`discoveryService.discoverPages` (lines 199-203). -/
structure DiscoveryOptions where
  maxPages : Nat
  bypassCooldown : Bool
  cooldownMinutes : Nat
deriving DecidableEq, Repr

/-- The literal options object passed at lines 199-203:
`maxPages: job.maxPages || 25`, `bypassCooldown: true`,
`cooldownMinutes: 5`. -/
def processJobDiscoveryOptions (job : Job) : DiscoveryOptions :=
  { maxPages := job.maxPages.getD 25
    bypassCooldown := true
    cooldownMinutes := 5 }

/-- Modelled from the spec: `discoveryService.discoverPages` itself is not
among the sources (only its caller is), so its cooldown rule is taken from
spec section 4.3 — if the domain was crawled within `cooldownMinutes`
(`withinCooldown`) and `bypassCooldown` is false, discovery yields the
previously stored page set, or an empty set if none is stored, with no new
network fetch; otherwise it performs the fresh crawl (`fresh`). -/
def discoverPagesSpec (withinCooldown : Bool) (opts : DiscoveryOptions)
    (stored : Option (List String)) (fresh : List String) : List String :=
  if withinCooldown && !opts.bypassCooldown then stored.getD []
  else fresh

/-- Worker segment for the zero-pages branch (lines 206-302): progress 90
and its event, the `saveResults` write of the minimal results (a throw is
rethrown at lines 298-301), the terminal mutation to
`complete` / 100 / `Scrape completed with minimal results`, the
`updateJobStatus` write (a throw is caught at 298 and rethrown before the
completion event), the completion event, the move from `activeJobs` to
`completedJobs`, and the tail call to `processNextJob`.  The second
component is the rethrown error message, `none` on success. -/
def workerRunEmpty (maxConcurrent : Nat) (saveOk updOk publishOk : Bool)
    (now : String) (id : String) (s : ManagerState) :
    ManagerState × Option String :=
  match mapGet s.jobs id with
  | none => (s, some "Failed to process job: missing job object")
  | some job =>
    let job := { job with progress := 90, message := "Saving minimal results" }
    let s := { s with jobs := mapSet s.jobs id job }
    let s := emitSocketEvent publishOk (jobEvent job) s
    if !saveOk then
      (s, some "Failed to process job: Failed to save minimal results")
    else
      let s := { s with results := mapSet s.results id (minimalResults job.domain now) }
      let job := { job with status := .complete, progress := 100
                            message := "Scrape completed with minimal results"
                            completedAt := some now }
      let s := { s with jobs := mapSet s.jobs id job }
      if !updOk then
        (s, some "Failed to process job: Failed to save minimal results")
      else
        let s := { s with db := mapSet s.db id .complete }
        let s := emitSocketEvent publishOk (jobEvent job) s
        let s := { s with active := removeFirst s.active id
                          completed := addId s.completed id }
        (processNextJob maxConcurrent now s, none)

/-- The per-page content loop (lines 317-334): after each
`extractPageContent` await, progress moves to
`min(30 + floor(k/n * 30), 60)` and an event is emitted with the message
`Extracted content from k of n pages` and the current status of the job.  The
JavaScript expression rounds in binary floating point; the natural-number
division used here agrees with it whenever `k/n` is exactly representable
(in particular for `n = 1` and `n = 2`, the only sizes evaluated below). -/
def pageLoop (publishOk : Bool) (id : String) (n : Nat) (k : Nat)
    (remaining : List String) (s : ManagerState) : ManagerState :=
  match remaining with
  | [] => s
  | _ :: rest =>
    match mapGet s.jobs id with
    | none => s
    | some job =>
      let k := k + 1
      let job := { job with progress := min (30 + k * 30 / n) 60 }
      let s := { s with jobs := mapSet s.jobs id job }
      let s := emitSocketEvent publishOk
        { room := "job-" ++ job.jobId
          jobId := job.jobId
          status := job.status
          progress := job.progress
          message := "Extracted content from " ++ toString k ++ " of " ++
            toString n ++ " pages" } s
      pageLoop publishOk id n k rest s

/-- Worker segment for the non-empty-pages branch (lines 304-519):
progress 30 and its event, the per-page content loop, progress 60 and its
event, the six extractor invocations (each wrapped in `try/catch`, modelled
by `outcomes`), progress 80 and its event, the assembly of `results` via
`combineResults`, the guarded `domain_info` data write (lines 480-491,
errors caught), the terminal mutation to `complete` / 100 /
`Scrape completed`, the `updateJobStatus` write (line 500; a throw reaches
the outer catch at 516-519, which logs and rethrows without freeing the
slot), the completion event, the move to `completedJobs`, and the tail
call to `processNextJob`. -/
def workerRunPages (maxConcurrent : Nat) (pages : List String)
    (outcomes : ExtractorOutcomes) (domainInfoId : Option Nat)
    (saveDataOk updOk publishOk : Bool) (now : String) (id : String)
    (s : ManagerState) : ManagerState × Option String :=
  match mapGet s.jobs id with
  | none => (s, some "Failed to process job: missing job object")
  | some job =>
    let job := { job with progress := 30, message := "Extracting content" }
    let s := { s with jobs := mapSet s.jobs id job }
    let s := emitSocketEvent publishOk (jobEvent job) s
    let s := pageLoop publishOk id pages.length 0 pages s
    match mapGet s.jobs id with
    | none => (s, some "Failed to process job: missing job object")
    | some job =>
      let job := { job with progress := 60
                            message := "Extracting detailed information" }
      let s := { s with jobs := mapSet s.jobs id job }
      let s := emitSocketEvent publishOk (jobEvent job) s
      let job := { job with progress := 80, message := "Building final results" }
      let s := { s with jobs := mapSet s.jobs id job }
      let s := emitSocketEvent publishOk (jobEvent job) s
      let finalResults := combineResults job.domain now pages.length outcomes
      let s := if domainInfoId.isSome && saveDataOk then
                 { s with domainData := mapSet s.domainData job.domain finalResults }
               else s
      let job := { job with status := .complete, progress := 100
                            message := "Scrape completed"
                            completedAt := some now }
      let s := { s with jobs := mapSet s.jobs id job }
      if !updOk then
        (s, some "Failed to process job: status write failed")
      else
        let s := { s with db := mapSet s.db id .complete }
        let s := emitSocketEvent publishOk (jobEvent job) s
        let s := { s with active := removeFirst s.active id
                          completed := addId s.completed id }
        (processNextJob maxConcurrent now s, none)

/-- Result shape of `cancelJob` (lines 566, 582, 590-592, 596). -/
structure CancelResult where
  success : Bool
  message : String
deriving DecidableEq, Repr

/-- Function `cancelJob` (lines 544-598).  Active branch (547-567): the job object
is mutated to `cancelled` / progress 0 / `Job cancelled by user` before the
`updateJobStatus` await at 557; when that write throws (`updOk = false`)
the outer catch returns `success = false` with the mutation already applied
and the job still in `activeJobs` (the delete at 560 never runs).  On
success the id moves to `completedJobs` and `processNextJob` runs.  Queued
branch (570-584): the id is spliced out of its tier before the status
write; a throw there likewise returns failure with the splice already
done.  Fallback (586-593): a best-effort status write whose truthy result
(`dbFound`) selects the success message; no socket event is emitted on any
branch. -/
def cancelJob (maxConcurrent : Nat) (updOk dbFound : Bool) (now : String)
    (jobId : String) (s : ManagerState) : CancelResult × ManagerState :=
  if jobId ∈ s.active then
    match mapGet s.jobs jobId with
    | none => ({ success := false, message := "Error cancelling job: missing job object" }, s)
    | some job =>
      let job := { job with status := .cancelled, progress := 0
                            message := "Job cancelled by user"
                            completedAt := some now }
      let s := { s with jobs := mapSet s.jobs jobId job }
      if !updOk then
        ({ success := false, message := "Error cancelling job: status write failed" }, s)
      else
        let s := { s with db := mapSet s.db jobId .cancelled }
        let s := { s with active := removeFirst s.active jobId
                          completed := addId s.completed jobId }
        ({ success := true, message := "Job cancelled successfully" },
          processNextJob maxConcurrent now s)
  else if jobId ∈ s.high then
    let s := { s with high := removeFirst s.high jobId }
    if !updOk then
      ({ success := false, message := "Error cancelling job: status write failed" }, s)
    else
      ({ success := true, message := "Job cancelled successfully" },
        { s with db := mapSet s.db jobId .cancelled })
  else if jobId ∈ s.normal then
    let s := { s with normal := removeFirst s.normal jobId }
    if !updOk then
      ({ success := false, message := "Error cancelling job: status write failed" }, s)
    else
      ({ success := true, message := "Job cancelled successfully" },
        { s with db := mapSet s.db jobId .cancelled })
  else if jobId ∈ s.low then
    let s := { s with low := removeFirst s.low jobId }
    if !updOk then
      ({ success := false, message := "Error cancelling job: status write failed" }, s)
    else
      ({ success := true, message := "Job cancelled successfully" },
        { s with db := mapSet s.db jobId .cancelled })
  else
    if !updOk then
      ({ success := false, message := "Error cancelling job: status write failed" }, s)
    else if dbFound then
      ({ success := true, message := "Job cancelled successfully" },
        { s with db := mapSet s.db jobId .cancelled })
    else
      ({ success := false, message := "Job not found" }, s)

/-- Function `init` (lines 36-70): each pending job from the store is demoted from
`processing` to `queued` when needed and pushed onto the tier of its
priority, then dispatch runs once. -/
def initManager (maxConcurrent : Nat) (now : String) (pending : List Job)
    (s : ManagerState) : ManagerState :=
  let s := pending.foldl (fun st job =>
    let job := if job.status = .processing then { job with status := .queued }
               else job
    let st := { st with jobs := mapSet st.jobs job.jobId job }
    pushTier st job.priority job.jobId) s
  processNextJob maxConcurrent now s

/-- One scheduler-visible transition of the manager.  Worker segments are
separate transitions because `processJob` suspends at every `await`,
letting `cancelJob`, `queueJob` and dispatch interleave there on the
single-threaded event loop. -/
inductive Step (maxConcurrent : Nat) : ManagerState → ManagerState → Prop
  | queue (saveOk : Bool) (now : String) (job : Job) (s : ManagerState) :
      Step maxConcurrent s (queueJob maxConcurrent saveOk now job s).1
  | dispatch (now : String) (s : ManagerState) :
      Step maxConcurrent s (processNextJob maxConcurrent now s)
  | workBegin (updOk publishOk : Bool) (id : String) (s : ManagerState) :
      Step maxConcurrent s (workerBegin updOk publishOk id s)
  | workEmpty (saveOk updOk publishOk : Bool) (now id : String)
      (s : ManagerState) :
      Step maxConcurrent s
        (workerRunEmpty maxConcurrent saveOk updOk publishOk now id s).1
  | workPages (pages : List String) (outcomes : ExtractorOutcomes)
      (domainInfoId : Option Nat) (saveDataOk updOk publishOk : Bool)
      (now id : String) (s : ManagerState) :
      Step maxConcurrent s
        (workerRunPages maxConcurrent pages outcomes domainInfoId saveDataOk
          updOk publishOk now id s).1
  | cancel (updOk dbFound : Bool) (now id : String) (s : ManagerState) :
      Step maxConcurrent s (cancelJob maxConcurrent updOk dbFound now id s).2
  | load (now : String) (pending : List Job) (s : ManagerState) :
      Step maxConcurrent s (initManager maxConcurrent now pending s)

/-- States reachable from the module-load state by scheduler
transitions. -/
inductive Reachable (maxConcurrent : Nat) : ManagerState → Prop
  | start : Reachable maxConcurrent initialState
  | step {s s' : ManagerState} : Reachable maxConcurrent s →
      Step maxConcurrent s s' → Reachable maxConcurrent s'

theorem addId_length (l : List String) (id : String) :
    (addId l id).length ≤ l.length + 1 := by
  unfold addId; split <;> simp

theorem removeFirst_length (l : List String) (id : String) :
    (removeFirst l id).length ≤ l.length := by
  induction l with
  | nil => simp [removeFirst]
  | cons x rest ih =>
    unfold removeFirst
    split
    · simp
    · simp only [List.length_cons]
      omega

theorem popNext_active {s s1 : ManagerState} {id : String}
    (h : popNext s = some (id, s1)) : s1.active = s.active := by
  unfold popNext at h
  rcases hh : s.high with _ | ⟨x, xs⟩ <;> rw [hh] at h
  · rcases hn : s.normal with _ | ⟨y, ys⟩ <;> rw [hn] at h
    · rcases hl : s.low with _ | ⟨z, zs⟩ <;> rw [hl] at h
      · exact absurd h (by simp)
      · cases h; rfl
    · cases h; rfl
  · cases h; rfl

theorem startJob_active_length (now : String) (id : String) (s : ManagerState) :
    (startJob now id s).active.length ≤ s.active.length + 1 := by
  unfold startJob
  split
  · omega
  · simpa using addId_length s.active id

theorem pushTier_active (s : ManagerState) (p : Priority) (id : String) :
    (pushTier s p id).active = s.active := by
  cases p <;> rfl

theorem emitSocketEvent_active (b : Bool) (ev : SEvent) (s : ManagerState) :
    (emitSocketEvent b ev s).active = s.active := by
  unfold emitSocketEvent; split <;> rfl

/-- Dispatch never pushes the active set above the limit: `processNextJob`
returns at once when at capacity and re-checks before each recursive
call. -/
theorem processNextJobAux_active_le (maxC : Nat) (now : String) :
    ∀ (fuel : Nat) (s : ManagerState), s.active.length ≤ maxC →
      (processNextJobAux maxC now fuel s).active.length ≤ maxC := by
  intro fuel
  induction fuel with
  | zero => intro s h; exact h
  | succ fuel ih =>
    intro s h
    rw [processNextJobAux]
    split
    · exact h
    · split
      · exact h
      · rename_i id1 s1 hpop
        have hlt : s.active.length < maxC := by omega
        have hact : s1.active = s.active := popNext_active hpop
        have hs2 : (startJob now id1 s1).active.length ≤ maxC := by
          calc (startJob now id1 s1).active.length ≤ s1.active.length + 1 :=
                startJob_active_length _ _ _
            _ ≤ maxC := by rw [hact]; omega
        dsimp only
        split
        · exact ih _ hs2
        · exact hs2

theorem processNextJob_le {maxC : Nat} {now : String} {s : ManagerState}
    (h : s.active.length ≤ maxC) :
    (processNextJob maxC now s).active.length ≤ maxC :=
  processNextJobAux_active_le maxC now (queueSize s) s h

theorem dispatchIf_active_le {maxC : Nat} {now : String} {t : ManagerState}
    (h : t.active.length ≤ maxC) :
    (if t.active.length < maxC then processNextJob maxC now t
     else t).active.length ≤ maxC := by
  split
  · exact processNextJob_le h
  · exact h

theorem queueJob_active_le {maxC : Nat} {saveOk : Bool} {now : String}
    {job : Job} {s : ManagerState} (h : s.active.length ≤ maxC) :
    (queueJob maxC saveOk now job s).1.active.length ≤ maxC := by
  unfold queueJob
  split
  · exact h
  · dsimp only
    exact dispatchIf_active_le (by rw [pushTier_active]; exact h)

theorem workerBegin_active_le {maxC : Nat} {updOk publishOk : Bool}
    {id : String} {s : ManagerState} (h : s.active.length ≤ maxC) :
    (workerBegin updOk publishOk id s).active.length ≤ maxC := by
  unfold workerBegin
  split
  · exact h
  · dsimp only
    rw [emitSocketEvent_active]
    split <;> exact h

theorem workerRunEmpty_active_le {maxC : Nat} {saveOk updOk publishOk : Bool}
    {now id : String} {s : ManagerState} (h : s.active.length ≤ maxC) :
    (workerRunEmpty maxC saveOk updOk publishOk now id s).1.active.length ≤
      maxC := by
  unfold workerRunEmpty
  split
  · exact h
  · dsimp only
    split
    · dsimp only
      rw [emitSocketEvent_active]
      exact h
    · split
      · dsimp only
        rw [emitSocketEvent_active]
        exact h
      · dsimp only
        apply processNextJob_le
        simp only [emitSocketEvent_active]
        exact le_trans (removeFirst_length _ _) h

theorem pageLoop_active (publishOk : Bool) (id : String) (n : Nat) :
    ∀ (remaining : List String) (k : Nat) (s : ManagerState),
      (pageLoop publishOk id n k remaining s).active = s.active := by
  intro remaining
  induction remaining with
  | nil => intro k s; rfl
  | cons p rest ih =>
    intro k s
    unfold pageLoop
    split
    · rfl
    · dsimp only
      rw [ih, emitSocketEvent_active]

theorem workerRunPages_active_le {maxC : Nat} {pages : List String}
    {outcomes : ExtractorOutcomes} {domainInfoId : Option Nat}
    {saveDataOk updOk publishOk : Bool} {now id : String} {s : ManagerState}
    (h : s.active.length ≤ maxC) :
    (workerRunPages maxC pages outcomes domainInfoId saveDataOk updOk
      publishOk now id s).1.active.length ≤ maxC := by
  unfold workerRunPages
  split
  · exact h
  · dsimp only
    split
    · simp only [pageLoop_active, emitSocketEvent_active]
      exact h
    · split
      · simp only [apply_ite ManagerState.active, emitSocketEvent_active,
          pageLoop_active, ite_self]
        exact h
      · apply processNextJob_le
        simp only [apply_ite ManagerState.active, emitSocketEvent_active,
          pageLoop_active, ite_self]
        exact le_trans (removeFirst_length _ _) h

theorem cancelJob_active_le {maxC : Nat} {updOk dbFound : Bool}
    {now jobId : String} {s : ManagerState} (h : s.active.length ≤ maxC) :
    (cancelJob maxC updOk dbFound now jobId s).2.active.length ≤ maxC := by
  unfold cancelJob
  split
  · split
    · exact h
    · dsimp only
      split
      · exact h
      · apply processNextJob_le
        exact le_trans (by simpa using removeFirst_length s.active jobId) h
  · split
    · split <;> exact h
    · split
      · split <;> exact h
      · split
        · split <;> exact h
        · split
          · exact h
          · split <;> exact h

theorem initFold_active (pending : List Job) :
    ∀ s : ManagerState,
      (pending.foldl (fun st job =>
        let job := if job.status = .processing then { job with status := .queued }
                   else job
        let st := { st with jobs := mapSet st.jobs job.jobId job }
        pushTier st job.priority job.jobId) s).active = s.active := by
  induction pending with
  | nil => intro s; rfl
  | cons j rest ih =>
    intro s
    rw [List.foldl_cons, ih]
    dsimp only
    rw [pushTier_active]

theorem initManager_active_le {maxC : Nat} {now : String} {pending : List Job}
    {s : ManagerState} (h : s.active.length ≤ maxC) :
    (initManager maxC now pending s).active.length ≤ maxC := by
  unfold initManager
  apply processNextJob_le
  rw [initFold_active]
  exact h

theorem step_active_le {maxC : Nat} {s s' : ManagerState}
    (hstep : Step maxC s s') (h : s.active.length ≤ maxC) :
    s'.active.length ≤ maxC := by
  cases hstep with
  | queue saveOk now job s => exact queueJob_active_le h
  | dispatch now s => exact processNextJob_le h
  | workBegin updOk publishOk id s => exact workerBegin_active_le h
  | workEmpty saveOk updOk publishOk now id s => exact workerRunEmpty_active_le h
  | workPages pages outcomes domainInfoId saveDataOk updOk publishOk now id s =>
    exact workerRunPages_active_le h
  | cancel updOk dbFound now id s => exact cancelJob_active_le h
  | load now pending s => exact initManager_active_le h

theorem mapGet_mapSet_self {α : Type} (m : List (String × α)) (k : String)
    (v : α) : mapGet (mapSet m k v) k = some v := by
  induction m with
  | nil => simp [mapSet, mapGet]
  | cons p rest ih =>
    obtain ⟨k', v'⟩ := p
    unfold mapSet
    by_cases hk : k' = k
    · simp [hk, mapGet]
    · simp only [hk, if_false]
      unfold mapGet
      simp [hk, ih]

theorem mapGet_mapSet_ne {α : Type} (m : List (String × α)) {k k' : String}
    (v : α) (h : k ≠ k') : mapGet (mapSet m k' v) k = mapGet m k := by
  induction m with
  | nil => simp [mapSet, mapGet, Ne.symm h]
  | cons p rest ih =>
    obtain ⟨k0, v0⟩ := p
    unfold mapSet
    by_cases hk : k0 = k'
    · subst hk
      simp [mapGet, Ne.symm h]
    · simp only [hk, if_false]
      unfold mapGet
      by_cases h0 : k0 = k <;> simp [h0, ih]

theorem mem_addId_self (l : List String) (id : String) : id ∈ addId l id := by
  unfold addId; split
  · assumption
  · simp

theorem not_mem_addId {l : List String} {x id : String} (hne : x ≠ id)
    (hx : x ∉ l) : x ∉ addId l id := by
  unfold addId; split
  · exact hx
  · simp [hx, hne]

theorem not_mem_removeFirst {l : List String} {x id : String} (hx : x ∉ l) :
    x ∉ removeFirst l id := by
  induction l with
  | nil => simp [removeFirst]
  | cons y rest ih =>
    unfold removeFirst
    simp only [List.mem_cons, not_or] at hx
    split
    · exact hx.2
    · simp [hx.1, ih hx.2]

theorem removeFirst_self_not_mem {l : List String} {id : String}
    (h : l.count id ≤ 1) : id ∉ removeFirst l id := by
  induction l with
  | nil => simp [removeFirst]
  | cons y rest ih =>
    unfold removeFirst
    split
    · rename_i hy
      subst hy
      rw [List.count_cons_self] at h
      have : rest.count y = 0 := by omega
      exact (List.count_eq_zero).1 this
    · rename_i hy
      rw [List.count_cons_of_ne (Ne.symm hy)] at h
      intro hmem
      rcases List.mem_cons.1 hmem with h1 | h2
      · exact hy h1.symm
      · exact ih h h2

theorem emitSocketEvent_jobs (b : Bool) (ev : SEvent) (s : ManagerState) :
    (emitSocketEvent b ev s).jobs = s.jobs := by
  unfold emitSocketEvent; split <;> rfl

theorem emitSocketEvent_high (b : Bool) (ev : SEvent) (s : ManagerState) :
    (emitSocketEvent b ev s).high = s.high := by
  unfold emitSocketEvent; split <;> rfl

theorem emitSocketEvent_normal (b : Bool) (ev : SEvent) (s : ManagerState) :
    (emitSocketEvent b ev s).normal = s.normal := by
  unfold emitSocketEvent; split <;> rfl

theorem emitSocketEvent_low (b : Bool) (ev : SEvent) (s : ManagerState) :
    (emitSocketEvent b ev s).low = s.low := by
  unfold emitSocketEvent; split <;> rfl

theorem emitSocketEvent_completed (b : Bool) (ev : SEvent) (s : ManagerState) :
    (emitSocketEvent b ev s).completed = s.completed := by
  unfold emitSocketEvent; split <;> rfl

theorem emitSocketEvent_results (b : Bool) (ev : SEvent) (s : ManagerState) :
    (emitSocketEvent b ev s).results = s.results := by
  unfold emitSocketEvent; split <;> rfl

theorem emitSocketEvent_db (b : Bool) (ev : SEvent) (s : ManagerState) :
    (emitSocketEvent b ev s).db = s.db := by
  unfold emitSocketEvent; split <;> rfl

theorem emitSocketEvent_startedOrder (b : Bool) (ev : SEvent)
    (s : ManagerState) :
    (emitSocketEvent b ev s).startedOrder = s.startedOrder := by
  unfold emitSocketEvent; split <;> rfl

/-- The ids sitting in some tier of the queue. -/
def queuedIds (s : ManagerState) : List String :=
  s.high ++ s.normal ++ s.low

theorem popNext_frame {s s1 : ManagerState} {id1 : String}
    (h : popNext s = some (id1, s1)) :
    s1.jobs = s.jobs ∧ s1.active = s.active ∧ s1.completed = s.completed ∧
    s1.events = s.events ∧ s1.results = s.results ∧ s1.db = s.db ∧
    s1.startedOrder = s.startedOrder ∧
    id1 ∈ queuedIds s ∧ (∀ x, x ∈ queuedIds s1 → x ∈ queuedIds s) := by
  unfold popNext at h
  rcases hh : s.high with _ | ⟨x, xs⟩ <;> rw [hh] at h
  · rcases hn : s.normal with _ | ⟨y, ys⟩ <;> rw [hn] at h
    · rcases hl : s.low with _ | ⟨z, zs⟩ <;> rw [hl] at h
      · exact absurd h (by simp)
      · cases h
        refine ⟨rfl, rfl, rfl, rfl, rfl, rfl, rfl, ?_, ?_⟩
        · simp [queuedIds, hh, hn, hl]
        · intro x hx
          simp only [queuedIds, hh, hn, hl, List.append_nil,
            List.nil_append] at hx ⊢
          simp only [List.mem_cons]
          right
          simpa using hx
    · cases h
      refine ⟨rfl, rfl, rfl, rfl, rfl, rfl, rfl, ?_, ?_⟩
      · simp [queuedIds, hh, hn]
      · intro x hx
        simp only [queuedIds, hh, hn, List.nil_append, List.mem_append,
          List.mem_cons] at hx ⊢
        tauto
  · cases h
    refine ⟨rfl, rfl, rfl, rfl, rfl, rfl, rfl, ?_, ?_⟩
    · simp [queuedIds, hh]
    · intro x hx
      simp only [queuedIds, hh, List.mem_append, List.mem_cons] at hx ⊢
      tauto

theorem startJob_frame (now : String) (id1 : String) (s : ManagerState) :
    (startJob now id1 s).events = s.events ∧
    (startJob now id1 s).completed = s.completed ∧
    (startJob now id1 s).results = s.results ∧
    (startJob now id1 s).db = s.db ∧
    (startJob now id1 s).high = s.high ∧
    (startJob now id1 s).normal = s.normal ∧
    (startJob now id1 s).low = s.low ∧
    (∀ x, x ≠ id1 → mapGet (startJob now id1 s).jobs x = mapGet s.jobs x) ∧
    (∀ x, x ≠ id1 → x ∉ s.active → x ∉ (startJob now id1 s).active) := by
  unfold startJob
  split
  · exact ⟨rfl, rfl, rfl, rfl, rfl, rfl, rfl, fun x _ => rfl, fun x _ hx => hx⟩
  · refine ⟨rfl, rfl, rfl, rfl, rfl, rfl, rfl, ?_, ?_⟩
    · intro x hx
      exact mapGet_mapSet_ne _ _ hx
    · intro x hx hact
      exact not_mem_addId hx hact

/-- Frame conditions of dispatch: it emits no events, moves nothing into
`completedJobs`, writes no results and no job-status rows, and neither
mutates the job object of, nor activates, any id that is not sitting in
the queue. -/
theorem processNextJobAux_frame (maxC : Nat) (now : String) :
    ∀ (fuel : Nat) (s : ManagerState),
      (processNextJobAux maxC now fuel s).events = s.events ∧
      (processNextJobAux maxC now fuel s).completed = s.completed ∧
      (processNextJobAux maxC now fuel s).results = s.results ∧
      (processNextJobAux maxC now fuel s).db = s.db ∧
      (∀ x, x ∉ queuedIds s →
        mapGet (processNextJobAux maxC now fuel s).jobs x = mapGet s.jobs x) ∧
      (∀ x, x ∉ queuedIds s → x ∉ s.active →
        x ∉ (processNextJobAux maxC now fuel s).active) := by
  intro fuel
  induction fuel with
  | zero =>
    intro s
    exact ⟨rfl, rfl, rfl, rfl, fun x _ => rfl, fun x _ hx => hx⟩
  | succ fuel ih =>
    intro s
    rw [processNextJobAux]
    split
    · exact ⟨rfl, rfl, rfl, rfl, fun x _ => rfl, fun x _ hx => hx⟩
    · split
      · exact ⟨rfl, rfl, rfl, rfl, fun x _ => rfl, fun x _ hx => hx⟩
      · rename_i id1 s1 hpop
        dsimp only
        obtain ⟨hjobs, hact, hcomp, hev, hres, hdb, hord, hid1, hsub⟩ :=
          popNext_frame hpop
        obtain ⟨sev, scomp, sres, sdb, shigh, snorm, slow, sjobs, sact⟩ :=
          startJob_frame now id1 s1
        have hqsub : ∀ x, x ∉ queuedIds s →
            x ∉ queuedIds (startJob now id1 s1) := by
          intro x hx hmem
          apply hx
          apply hsub
          simpa [queuedIds, shigh, snorm, slow] using hmem
        split
        · obtain ⟨pev, pcomp, pres, pdb, pjobs, pact⟩ :=
            ih (startJob now id1 s1)
          refine ⟨?_, ?_, ?_, ?_, ?_, ?_⟩
          · rw [pev, sev, hev]
          · rw [pcomp, scomp, hcomp]
          · rw [pres, sres, hres]
          · rw [pdb, sdb, hdb]
          · intro x hx
            have hxne : x ≠ id1 := fun hxx => hx (hxx ▸ hid1)
            rw [pjobs x (hqsub x hx), sjobs x hxne, hjobs]
          · intro x hx hactx
            refine pact x (hqsub x hx) ?_
            exact sact x (fun hxx => hx (hxx ▸ hid1)) (hact ▸ hactx)
        · refine ⟨?_, ?_, ?_, ?_, ?_, ?_⟩
          · rw [sev, hev]
          · rw [scomp, hcomp]
          · rw [sres, hres]
          · rw [sdb, hdb]
          · intro x hx
            have hxne : x ≠ id1 := fun hxx => hx (hxx ▸ hid1)
            rw [sjobs x hxne, hjobs]
          · intro x hx hactx
            exact sact x (fun hxx => hx (hxx ▸ hid1)) (hact ▸ hactx)

/-- The `processNextJob` frame conditions, instantiated from the fuel-indexed
statement. -/
theorem processNextJob_frame (maxC : Nat) (now : String) (s : ManagerState) :
    (processNextJob maxC now s).events = s.events ∧
    (processNextJob maxC now s).completed = s.completed ∧
    (processNextJob maxC now s).results = s.results ∧
    (processNextJob maxC now s).db = s.db ∧
    (∀ x, x ∉ queuedIds s →
      mapGet (processNextJob maxC now s).jobs x = mapGet s.jobs x) ∧
    (∀ x, x ∉ queuedIds s → x ∉ s.active →
      x ∉ (processNextJob maxC now s).active) :=
  processNextJobAux_frame maxC now (queueSize s) s

theorem pageLoop_frame (publishOk : Bool) (id : String) (n : Nat) :
    ∀ (remaining : List String) (k : Nat) (s : ManagerState),
      (pageLoop publishOk id n k remaining s).high = s.high ∧
      (pageLoop publishOk id n k remaining s).normal = s.normal ∧
      (pageLoop publishOk id n k remaining s).low = s.low ∧
      (pageLoop publishOk id n k remaining s).completed = s.completed ∧
      (pageLoop publishOk id n k remaining s).results = s.results ∧
      (pageLoop publishOk id n k remaining s).db = s.db ∧
      ((mapGet s.jobs id).isSome →
        (mapGet (pageLoop publishOk id n k remaining s).jobs id).isSome) := by
  intro remaining
  induction remaining with
  | nil =>
    intro k s
    exact ⟨rfl, rfl, rfl, rfl, rfl, rfl, fun h => h⟩
  | cons p rest ih =>
    intro k s
    unfold pageLoop
    split
    · exact ⟨rfl, rfl, rfl, rfl, rfl, rfl, fun h => h⟩
    · rename_i job hjob
      dsimp only
      obtain ⟨ihh, ihn, ihl, ihc, ihr, ihd, ihj⟩ := ih (k + 1) _
      refine ⟨?_, ?_, ?_, ?_, ?_, ?_, ?_⟩
      · rw [ihh, emitSocketEvent_high]
      · rw [ihn, emitSocketEvent_normal]
      · rw [ihl, emitSocketEvent_low]
      · rw [ihc, emitSocketEvent_completed]
      · rw [ihr, emitSocketEvent_results]
      · rw [ihd, emitSocketEvent_db]
      · intro _
        apply ihj
        rw [emitSocketEvent_jobs]
        simp [mapGet_mapSet_self]

/-- A freshly submitted job object, as built by the API route before
`queueJob`. -/
def mkJob (id : String) (p : Priority) : Job :=
  { jobId := id, domain := "example.com", priority := p, maxPages := none
    status := .queued, progress := 0, message := "Job queued"
    startedAt := none, completedAt := none }

def jobH1 : Job := mkJob "H1" .high
def jobN1 : Job := mkJob "N1" .normal
def jobH2 : Job := mkJob "H2" .high

/-- State after submitting H1 (high), N1 (normal), H2 (high) with a single
worker slot: H1 is dispatched at submission, N1 and H2 wait in their
tiers. -/
def scenarioAfterSubmits : ManagerState :=
  ((queueJob 1 true "t2"
    jobH2 ((queueJob 1 true "t1"
      jobN1 ((queueJob 1 true "t0" jobH1 initialState).1)).1)).1)

/-- Scenario of spec section 8: each started job completes instantly (the
zero-page completion path), freeing the slot for the next dispatch. -/
def scenarioFinal : ManagerState :=
  ((workerRunEmpty 1 true true true "t5" "N1"
    ((workerRunEmpty 1 true true true "t4" "H2"
      ((workerRunEmpty 1 true true true "t3" "H1" scenarioAfterSubmits).1)).1)).1)

/-- A state with the single job `J` active and empty queue tiers. -/
def jobJ : Job := mkJob "J" .high

def sWithActive : ManagerState := (queueJob 1 true "t0" jobJ initialState).1

/-- Extractor outcomes in which every extractor succeeded (with the
documented default shapes as sample payloads). -/
def sampleOutcomes : ExtractorOutcomes :=
  { enhancedImageData := some defaultImages
    socialMediaData := some defaultSocialMedia
    blogData := some defaultBlog
    colorData := some defaultColors
    generalData := some (defaultGeneral "example.com")
    isbnData := some defaultIsbn }

/-- Extractor outcomes in which exactly the blog extractor threw. -/
def oneFailOutcomes : ExtractorOutcomes :=
  { sampleOutcomes with blogData := none }

/-- C3: dispatch pops strictly from the high tier, then normal, then low —
a lower tier is consulted only when every higher tier is empty — and FIFO
order is preserved within each tier (submission appends at the tail of the
tier, dispatch shifts from its head); in the scenario H1(high), N1(normal),
H2(high) with a single slot and instant completion the dispatch order is
H1, H2, N1. -/
theorem strict_priority_dispatch :
    (∀ (s : ManagerState) (id : String) (rest : List String),
      (s.high = id :: rest → popNext s = some (id, { s with high := rest })) ∧
      (s.high = [] → s.normal = id :: rest →
        popNext s = some (id, { s with normal := rest })) ∧
      (s.high = [] → s.normal = [] → s.low = id :: rest →
        popNext s = some (id, { s with low := rest }))) ∧
    (∀ (s : ManagerState) (id : String),
      (pushTier s .high id).high = s.high ++ [id] ∧
      (pushTier s .normal id).normal = s.normal ++ [id] ∧
      (pushTier s .low id).low = s.low ++ [id]) ∧
    scenarioFinal.startedOrder = ["H1", "H2", "N1"] := by
  refine ⟨?_, ?_, by decide⟩
  · intro s id rest
    refine ⟨?_, ?_, ?_⟩
    · intro h1
      unfold popNext
      rw [h1]
    · intro h1 h2
      unfold popNext
      rw [h1, h2]
    · intro h1 h2 h3
      unfold popNext
      rw [h1, h2, h3]
  · intro s id
    exact ⟨rfl, rfl, rfl⟩

theorem strict_priority_dispatch_witness :
    popNext { initialState with normal := ["n1"] } =
      some ("n1", { initialState with normal := [] }) :=
  ((strict_priority_dispatch.1 { initialState with normal := ["n1"] }
    "n1" []).2.1) rfl rfl

/-- C4: in every reachable manager state, the number of active
(`status = processing`) jobs never exceeds the configured concurrency
limit; both submission (line 93) and dispatch (lines 111-113 and 131)
re-check capacity before starting a job. -/
theorem concurrency_limit_invariant (maxC : Nat) (s : ManagerState)
    (h : Reachable maxC s) : s.active.length ≤ maxC := by
  induction h with
  | start => simp [initialState]
  | step hr hstep ih => exact step_active_le hstep ih

theorem concurrency_limit_invariant_witness :
    sWithActive.active.length ≤ 1 :=
  concurrency_limit_invariant 1 sWithActive
    (Reachable.step Reachable.start (Step.queue true "t0" jobJ initialState))

/-- C8: when the Job Store write in `queueJob` fails, submit raises the
wrapped persistence error and the manager state — queue tiers, active set,
heap, everything — is unchanged: the job is never enqueued. -/
theorem submit_atomic_on_store_failure (maxC : Nat) (now : String)
    (job : Job) (s : ManagerState) :
    (queueJob maxC false now job s).1 = s ∧
    (queueJob maxC false now job s).2 =
      .error "Failed to queue job: store write failed" :=
  ⟨rfl, rfl⟩

/-- C10: `cancelJob` on an active job overwrites its progress with 0 (and
its status with `cancelled`), regardless of how far it had advanced. -/
theorem cancel_resets_progress (maxC : Nat) (updOk dbFound : Bool)
    (now jobId : String) (s : ManagerState) (job : Job)
    (ha : jobId ∈ s.active) (hj : mapGet s.jobs jobId = some job)
    (hq : jobId ∉ queuedIds s) :
    mapGet (cancelJob maxC updOk dbFound now jobId s).2.jobs jobId =
      some { job with status := .cancelled, progress := 0
                      message := "Job cancelled by user"
                      completedAt := some now } := by
  unfold cancelJob
  rw [if_pos ha, hj]
  dsimp only
  split
  · exact mapGet_mapSet_self _ _ _
  · dsimp only
    refine Eq.trans ((processNextJob_frame maxC now _).2.2.2.2.1 jobId ?_) ?_
    · exact hq
    · exact mapGet_mapSet_self _ _ _

theorem cancel_resets_progress_witness :
    mapGet (cancelJob 1 true true "t9" "J" sWithActive).2.jobs "J" =
      some { jobId := "J", domain := "example.com", priority := .high
             maxPages := none, status := .cancelled, progress := 0
             message := "Job cancelled by user", startedAt := some "t0"
             completedAt := some "t9" } :=
  cancel_resets_progress 1 true true "t9" "J" sWithActive
    { jobId := "J", domain := "example.com", priority := .high
      maxPages := none, status := .processing, progress := 0
      message := "Job queued", startedAt := some "t0", completedAt := none }
    (by decide) (by decide) (by decide)

/-- C2: when discovery returns zero pages (the `workerRunEmpty` branch,
which never reaches an extractor), the saved result is `minimalResults`,
derived only from the domain name, with `blog.hasBlog = false`, empty
`images.all` and the fixed default palette; the job ends `complete` at
progress 100 with the distinguishing message
`Scrape completed with minimal results`, leaving the active set. -/
theorem zero_pages_minimal_results (maxC : Nat) (publishOk : Bool)
    (now id : String) (s : ManagerState) (job : Job)
    (hj : mapGet s.jobs id = some job) (hq : id ∉ queuedIds s)
    (hc : s.active.count id ≤ 1) :
    (workerRunEmpty maxC true true publishOk now id s).2 = none ∧
    mapGet (workerRunEmpty maxC true true publishOk now id s).1.results id =
      some (minimalResults job.domain now) ∧
    (minimalResults job.domain now).blog.hasBlog = false ∧
    (minimalResults job.domain now).images.all = [] ∧
    (minimalResults job.domain now).colors = defaultColors ∧
    mapGet (workerRunEmpty maxC true true publishOk now id s).1.jobs id =
      some { job with status := .complete, progress := 100
                      message := "Scrape completed with minimal results"
                      completedAt := some now } ∧
    id ∉ (workerRunEmpty maxC true true publishOk now id s).1.active ∧
    id ∈ (workerRunEmpty maxC true true publishOk now id s).1.completed := by
  have h1 : (workerRunEmpty maxC true true publishOk now id s).2 = none := by
    unfold workerRunEmpty
    rw [hj]
    simp only [Bool.not_true, Bool.false_eq_true, if_false]
  have h2 : mapGet (workerRunEmpty maxC true true publishOk now id s).1.results
      id = some (minimalResults job.domain now) := by
    unfold workerRunEmpty
    rw [hj]
    simp only [Bool.not_true, Bool.false_eq_true, if_false]
    refine Eq.trans (congrArg (fun l => mapGet l id)
      (processNextJob_frame maxC now _).2.2.1) ?_
    dsimp only
    rw [emitSocketEvent_results, emitSocketEvent_results]
    exact mapGet_mapSet_self _ _ _
  have h6 : mapGet (workerRunEmpty maxC true true publishOk now id s).1.jobs
      id = some { job with status := .complete, progress := 100
                           message := "Scrape completed with minimal results"
                           completedAt := some now } := by
    unfold workerRunEmpty
    rw [hj]
    simp only [Bool.not_true, Bool.false_eq_true, if_false]
    refine Eq.trans ((processNextJob_frame maxC now _).2.2.2.2.1 id ?_) ?_
    · simpa [queuedIds, emitSocketEvent_high, emitSocketEvent_normal,
        emitSocketEvent_low] using hq
    · dsimp only
      rw [emitSocketEvent_jobs]
      exact mapGet_mapSet_self _ _ _
  have h7 : id ∉ (workerRunEmpty maxC true true publishOk now id s).1.active := by
    unfold workerRunEmpty
    rw [hj]
    simp only [Bool.not_true, Bool.false_eq_true, if_false]
    refine (processNextJob_frame maxC now _).2.2.2.2.2 id ?_ ?_
    · simpa [queuedIds, emitSocketEvent_high, emitSocketEvent_normal,
        emitSocketEvent_low] using hq
    · dsimp only
      apply removeFirst_self_not_mem
      simpa [emitSocketEvent_active] using hc
  have h8 : id ∈ (workerRunEmpty maxC true true publishOk now id s).1.completed := by
    unfold workerRunEmpty
    rw [hj]
    simp only [Bool.not_true, Bool.false_eq_true, if_false]
    refine Eq.mpr (congrArg (fun l => id ∈ l)
      (processNextJob_frame maxC now _).2.1) ?_
    dsimp only
    exact mem_addId_self _ _
  exact ⟨h1, h2, rfl, rfl, rfl, h6, h7, h8⟩

theorem pageLoop_high (publishOk : Bool) (id : String) (n : Nat)
    (remaining : List String) (k : Nat) (s : ManagerState) :
    (pageLoop publishOk id n k remaining s).high = s.high :=
  (pageLoop_frame publishOk id n remaining k s).1

theorem pageLoop_normal (publishOk : Bool) (id : String) (n : Nat)
    (remaining : List String) (k : Nat) (s : ManagerState) :
    (pageLoop publishOk id n k remaining s).normal = s.normal :=
  (pageLoop_frame publishOk id n remaining k s).2.1

theorem pageLoop_low (publishOk : Bool) (id : String) (n : Nat)
    (remaining : List String) (k : Nat) (s : ManagerState) :
    (pageLoop publishOk id n k remaining s).low = s.low :=
  (pageLoop_frame publishOk id n remaining k s).2.2.1

theorem pageLoop_completed (publishOk : Bool) (id : String) (n : Nat)
    (remaining : List String) (k : Nat) (s : ManagerState) :
    (pageLoop publishOk id n k remaining s).completed = s.completed :=
  (pageLoop_frame publishOk id n remaining k s).2.2.2.1

/-- After the content loop, the job object of `id` is still a live heap
entry whenever it started as one wrapped in the progress-30 update and its
event emission. -/
theorem pageLoop_preserves_job (publishOk : Bool) (id : String) (n : Nat)
    (remaining : List String) (k : Nat) (b : Bool) (ev : SEvent)
    (s : ManagerState) (job : Job) :
    ∃ j2, mapGet (pageLoop publishOk id n k remaining
      (emitSocketEvent b ev { s with jobs := mapSet s.jobs id job })).jobs id =
        some j2 := by
  refine Option.isSome_iff_exists.1
    ((pageLoop_frame publishOk id n remaining k
      (emitSocketEvent b ev { s with jobs := mapSet s.jobs id job })).2.2.2.2.2.2
      ?_)
  rw [emitSocketEvent_jobs]
  dsimp only
  rw [mapGet_mapSet_self]
  rfl

theorem zero_pages_minimal_results_witness :
    (workerRunEmpty 1 true true true "t3" "J" sWithActive).2 = none ∧
    mapGet (workerRunEmpty 1 true true true "t3" "J" sWithActive).1.results
      "J" = some (minimalResults "example.com" "t3") ∧
    (minimalResults "example.com" "t3").blog.hasBlog = false ∧
    (minimalResults "example.com" "t3").images.all = [] ∧
    (minimalResults "example.com" "t3").colors = defaultColors ∧
    mapGet (workerRunEmpty 1 true true true "t3" "J" sWithActive).1.jobs "J" =
      some { jobId := "J", domain := "example.com", priority := .high
             maxPages := none, status := .complete, progress := 100
             message := "Scrape completed with minimal results"
             startedAt := some "t0", completedAt := some "t3" } ∧
    "J" ∉ (workerRunEmpty 1 true true true "t3" "J" sWithActive).1.active ∧
    "J" ∈ (workerRunEmpty 1 true true true "t3" "J" sWithActive).1.completed :=
  zero_pages_minimal_results 1 true "t3" "J" sWithActive
    { jobId := "J", domain := "example.com", priority := .high
      maxPages := none, status := .processing, progress := 0
      message := "Job queued", startedAt := some "t0", completedAt := none }
    (by decide) (by decide) (by decide)

set_option maxHeartbeats 2000000 in
/-- C1: with a non-empty page set, each section of the assembled
`AggregateResult` is the real output of the corresponding extractor when that
extractor succeeded and the documented default when it threw — so when
exactly one extractor throws, its section carries the default, every other
section carries the real output, and the run itself still finishes without
error with the job `complete` at progress 100; no extractor error aborts
the job or alters another section. -/
theorem extractor_isolation (maxC : Nat) (pages : List String)
    (outcomes : ExtractorOutcomes) (domainInfoId : Option Nat)
    (saveDataOk publishOk : Bool) (now id : String) (s : ManagerState)
    (job : Job)
    (hj : mapGet s.jobs id = some job) (hq : id ∉ queuedIds s)
    (hc : s.active.count id ≤ 1) (hp : pages ≠ [])
    (hone : outcomes.failureCount = 1) :
    (workerRunPages maxC pages outcomes domainInfoId saveDataOk true publishOk
      now id s).2 = none ∧
    (∃ jf, mapGet (workerRunPages maxC pages outcomes domainInfoId saveDataOk
        true publishOk now id s).1.jobs id = some jf ∧
      jf.status = .complete ∧ jf.progress = 100 ∧
      jf.message = "Scrape completed") ∧
    id ∉ (workerRunPages maxC pages outcomes domainInfoId saveDataOk true
      publishOk now id s).1.active ∧
    id ∈ (workerRunPages maxC pages outcomes domainInfoId saveDataOk true
      publishOk now id s).1.completed ∧
    (∀ (d t : String) (n : Nat),
      (outcomes.generalData = none →
        (combineResults d t n outcomes).general = defaultGeneral d) ∧
      (∀ x, outcomes.generalData = some x →
        (combineResults d t n outcomes).general = x) ∧
      (outcomes.blogData = none →
        (combineResults d t n outcomes).blog = defaultBlog) ∧
      (∀ x, outcomes.blogData = some x →
        (combineResults d t n outcomes).blog = x) ∧
      (outcomes.enhancedImageData = none →
        (combineResults d t n outcomes).images = defaultImages) ∧
      (∀ x, outcomes.enhancedImageData = some x →
        (combineResults d t n outcomes).images = x) ∧
      (outcomes.colorData = none →
        (combineResults d t n outcomes).colors = defaultColors) ∧
      (∀ x, outcomes.colorData = some x →
        (combineResults d t n outcomes).colors = x) ∧
      (outcomes.socialMediaData = none →
        (combineResults d t n outcomes).socialMedia =
          some defaultSocialMedia) ∧
      (∀ x, outcomes.socialMediaData = some x →
        (combineResults d t n outcomes).socialMedia = some x) ∧
      (outcomes.isbnData = none →
        (combineResults d t n outcomes).isbn = defaultIsbn) ∧
      (∀ x, outcomes.isbnData = some x →
        (combineResults d t n outcomes).isbn = x)) := by
  have hA : (workerRunPages maxC pages outcomes domainInfoId saveDataOk true
      publishOk now id s).2 = none := by
    unfold workerRunPages
    rw [hj]
    dsimp only
    obtain ⟨job2, hx⟩ := pageLoop_preserves_job publishOk id pages.length
      pages 0 publishOk
      (jobEvent { job with progress := 30, message := "Extracting content" })
      s { job with progress := 30, message := "Extracting content" }
    rw [hx]
    simp only [Bool.not_true, Bool.false_eq_true, if_false]
  have hB : ∃ jf, mapGet (workerRunPages maxC pages outcomes domainInfoId
      saveDataOk true publishOk now id s).1.jobs id = some jf ∧
      jf.status = .complete ∧ jf.progress = 100 ∧
      jf.message = "Scrape completed" := by
    unfold workerRunPages
    rw [hj]
    dsimp only
    obtain ⟨job2, hx⟩ := pageLoop_preserves_job publishOk id pages.length
      pages 0 publishOk
      (jobEvent { job with progress := 30, message := "Extracting content" })
      s { job with progress := 30, message := "Extracting content" }
    rw [hx]
    simp only [Bool.not_true, Bool.false_eq_true, if_false]
    refine ⟨{ job2 with status := .complete, progress := 100
                        message := "Scrape completed"
                        completedAt := some now }, ?_, rfl, rfl, rfl⟩
    refine Eq.trans ((processNextJob_frame maxC now _).2.2.2.2.1 id ?_) ?_
    · simp only [queuedIds, emitSocketEvent_high, emitSocketEvent_normal,
        emitSocketEvent_low, pageLoop_high, pageLoop_normal, pageLoop_low,
        apply_ite ManagerState.high, apply_ite ManagerState.normal,
        apply_ite ManagerState.low, ite_self]
      simpa [queuedIds] using hq
    · dsimp only
      rw [emitSocketEvent_jobs]
      exact mapGet_mapSet_self _ _ _
  have hC : id ∉ (workerRunPages maxC pages outcomes domainInfoId saveDataOk
      true publishOk now id s).1.active := by
    unfold workerRunPages
    rw [hj]
    dsimp only
    obtain ⟨job2, hx⟩ := pageLoop_preserves_job publishOk id pages.length
      pages 0 publishOk
      (jobEvent { job with progress := 30, message := "Extracting content" })
      s { job with progress := 30, message := "Extracting content" }
    rw [hx]
    simp only [Bool.not_true, Bool.false_eq_true, if_false]
    refine (processNextJob_frame maxC now _).2.2.2.2.2 id ?_ ?_
    · simp only [queuedIds, emitSocketEvent_high, emitSocketEvent_normal,
        emitSocketEvent_low, pageLoop_high, pageLoop_normal, pageLoop_low,
        apply_ite ManagerState.high, apply_ite ManagerState.normal,
        apply_ite ManagerState.low, ite_self]
      simpa [queuedIds] using hq
    · dsimp only
      apply removeFirst_self_not_mem
      simp only [emitSocketEvent_active, pageLoop_active,
        apply_ite ManagerState.active, ite_self]
      exact hc
  have hD : id ∈ (workerRunPages maxC pages outcomes domainInfoId saveDataOk
      true publishOk now id s).1.completed := by
    unfold workerRunPages
    rw [hj]
    dsimp only
    obtain ⟨job2, hx⟩ := pageLoop_preserves_job publishOk id pages.length
      pages 0 publishOk
      (jobEvent { job with progress := 30, message := "Extracting content" })
      s { job with progress := 30, message := "Extracting content" }
    rw [hx]
    simp only [Bool.not_true, Bool.false_eq_true, if_false]
    refine Eq.mpr (congrArg (fun l => id ∈ l)
      (processNextJob_frame maxC now _).2.1) ?_
    dsimp only
    exact mem_addId_self _ _
  refine ⟨hA, hB, hC, hD, ?_⟩
  intro d t n
  refine ⟨?_, ?_, ?_, ?_, ?_, ?_, ?_, ?_, ?_, ?_, ?_, ?_⟩ <;>
    first
    | (intro h; simp [combineResults, h])
    | (intro x h; simp [combineResults, h])

theorem extractor_isolation_witness :
    (workerRunPages 1 ["p"] oneFailOutcomes none true true true "t2" "J"
      sWithActive).2 = none ∧
    (combineResults "example.com" "t2" 1 oneFailOutcomes).blog = defaultBlog ∧
    (combineResults "example.com" "t2" 1 oneFailOutcomes).colors =
      defaultColors ∧
    "J" ∉ (workerRunPages 1 ["p"] oneFailOutcomes none true true true "t2" "J"
      sWithActive).1.active :=
  have h := extractor_isolation 1 ["p"] oneFailOutcomes none true true "t2"
    "J" sWithActive
    { jobId := "J", domain := "example.com", priority := .high
      maxPages := none, status := .processing, progress := 0
      message := "Job queued", startedAt := some "t0", completedAt := none }
    (by decide) (by decide) (by decide) (by decide) (by decide)
  ⟨h.1,
   (h.2.2.2.2 "example.com" "t2" 1).2.2.1 rfl,
   (h.2.2.2.2 "example.com" "t2" 1).2.2.2.2.2.2.2.1 defaultColors rfl,
   h.2.2.1⟩

/-- C5 counterexample: when the final `updateJobStatus` store write throws
mid-job (line 500), the catch at lines 516-519 only logs and rethrows.
At this concrete input the job never reaches status `failed` (its
in-memory record says `complete`), it remains in the active set — the
capacity slot is not freed — and the event log holds no terminal event
(every emitted event has progress at most 80 and status `processing`). -/
theorem pipeline_failure_counterexample :
    (workerRunPages 1 ["p"] sampleOutcomes none true false true "t2" "J"
      sWithActive).2 = some "Failed to process job: status write failed" ∧
    (workerRunPages 1 ["p"] sampleOutcomes none true false true "t2" "J"
      sWithActive).1.active = ["J"] ∧
    mapGet (workerRunPages 1 ["p"] sampleOutcomes none true false true "t2"
      "J" sWithActive).1.jobs "J" =
      some { jobId := "J", domain := "example.com", priority := .high
             maxPages := none, status := .complete, progress := 100
             message := "Scrape completed", startedAt := some "t0"
             completedAt := some "t2" } ∧
    (workerRunPages 1 ["p"] sampleOutcomes none true false true "t2" "J"
      sWithActive).1.events =
      [{ room := "job-J", jobId := "J", status := .processing, progress := 30
         message := "Extracting content" },
       { room := "job-J", jobId := "J", status := .processing, progress := 60
         message := "Extracted content from 1 of 1 pages" },
       { room := "job-J", jobId := "J", status := .processing, progress := 60
         message := "Extracting detailed information" },
       { room := "job-J", jobId := "J", status := .processing, progress := 80
         message := "Building final results" }] := by decide

set_option maxHeartbeats 2000000 in
/-- C5 amended: when the orchestration fails unexpectedly (here: the final
status write throws), the error is logged and rethrown; the job does not
transition to `failed`, it stays in the active set so its capacity slot is
not freed, and its in-memory record is left saying `complete`. -/
theorem pipeline_failure_behavior (maxC : Nat) (pages : List String)
    (outcomes : ExtractorOutcomes) (domainInfoId : Option Nat)
    (saveDataOk publishOk : Bool) (now id : String) (s : ManagerState)
    (job : Job) (hj : mapGet s.jobs id = some job) :
    (workerRunPages maxC pages outcomes domainInfoId saveDataOk false
      publishOk now id s).2 =
      some "Failed to process job: status write failed" ∧
    (workerRunPages maxC pages outcomes domainInfoId saveDataOk false
      publishOk now id s).1.active = s.active ∧
    ∃ jf, mapGet (workerRunPages maxC pages outcomes domainInfoId saveDataOk
        false publishOk now id s).1.jobs id = some jf ∧
      jf.status = .complete := by
  unfold workerRunPages
  rw [hj]
  dsimp only
  obtain ⟨job2, hx⟩ := pageLoop_preserves_job publishOk id pages.length
    pages 0 publishOk
    (jobEvent { job with progress := 30, message := "Extracting content" })
    s { job with progress := 30, message := "Extracting content" }
  rw [hx]
  simp only [Bool.not_false, if_true]
  refine ⟨trivial, ?_, ?_⟩
  · simp only [apply_ite ManagerState.active, emitSocketEvent_active,
      pageLoop_active, ite_self]
  · exact ⟨{ job2 with status := .complete, progress := 100
                       message := "Scrape completed"
                       completedAt := some now },
      mapGet_mapSet_self _ _ _, rfl⟩

theorem pipeline_failure_behavior_witness :
    (workerRunPages 1 ["q"] sampleOutcomes none true false true "t7" "J"
      sWithActive).2 =
      some "Failed to process job: status write failed" ∧
    (workerRunPages 1 ["q"] sampleOutcomes none true false true "t7" "J"
      sWithActive).1.active = sWithActive.active :=
  have h := pipeline_failure_behavior 1 ["q"] sampleOutcomes none true true
    "t7" "J" sWithActive
    { jobId := "J", domain := "example.com", priority := .high
      maxPages := none, status := .processing, progress := 0
      message := "Job queued", startedAt := some "t0", completedAt := none }
    (by decide)
  ⟨h.1, h.2.1⟩

/-- C6 counterexample: cancelling the processing job `J` marks it
cancelled and emits nothing, yet the worker — `processJob` has no
cancellation checkpoint — continues afterwards: five further progress
events are emitted for the job and its record is even overwritten to
`complete`. -/
theorem cancel_continuation_counterexample :
    (cancelJob 1 true true "t1" "J" sWithActive).2.events = [] ∧
    (mapGet (cancelJob 1 true true "t1" "J" sWithActive).2.jobs "J").map
      Job.status = some .cancelled ∧
    (workerRunPages 1 ["p"] sampleOutcomes none true true true "t2" "J"
      (cancelJob 1 true true "t1" "J" sWithActive).2).1.events.length = 5 ∧
    (mapGet (workerRunPages 1 ["p"] sampleOutcomes none true true true "t2"
      "J" (cancelJob 1 true true "t1" "J" sWithActive).2).1.jobs "J").map
      Job.status = some .complete := by decide

/-- C6 amended: cancelling a queued job removes it from its tier (so
dispatch cannot start it from the current queue) without ever starting it;
cancelling a processing job mutates its record but publishes no event at
all, and the worker is not stopped — the continuation keeps emitting
events, as the counterexample shows. -/
theorem cancellation_behavior (maxC : Nat) (updOk dbFound : Bool)
    (now jobId : String) (s : ManagerState) :
    (jobId ∉ s.active → jobId ∈ queuedIds s →
      (queuedIds s).count jobId ≤ 1 →
      jobId ∉ queuedIds (cancelJob maxC updOk dbFound now jobId s).2 ∧
      (cancelJob maxC updOk dbFound now jobId s).2.startedOrder =
        s.startedOrder) ∧
    (jobId ∈ s.active →
      (cancelJob maxC updOk dbFound now jobId s).2.events = s.events) := by
  constructor
  · intro ha hm hcount
    have hsum : s.high.count jobId + s.normal.count jobId +
        s.low.count jobId ≤ 1 := by
      have : (queuedIds s).count jobId =
          s.high.count jobId + s.normal.count jobId + s.low.count jobId := by
        simp [queuedIds, List.count_append]
        omega
      omega
    unfold cancelJob
    rw [if_neg ha]
    by_cases hh : jobId ∈ s.high
    · have hh1 : 0 < s.high.count jobId := List.count_pos_iff.2 hh
      have hn0 : s.normal.count jobId = 0 := by omega
      have hl0 : s.low.count jobId = 0 := by omega
      rw [if_pos hh]
      dsimp only
      constructor
      · split <;>
          (simp only [queuedIds, List.mem_append, not_or]
           exact ⟨⟨removeFirst_self_not_mem (by omega),
             List.count_eq_zero.1 hn0⟩, List.count_eq_zero.1 hl0⟩)
      · split <;> rfl
    · rw [if_neg hh]
      by_cases hn : jobId ∈ s.normal
      · have hn1 : 0 < s.normal.count jobId := List.count_pos_iff.2 hn
        have hh0 : s.high.count jobId = 0 := by omega
        have hl0 : s.low.count jobId = 0 := by omega
        rw [if_pos hn]
        dsimp only
        constructor
        · split <;>
            (simp only [queuedIds, List.mem_append, not_or]
             exact ⟨⟨List.count_eq_zero.1 hh0,
               removeFirst_self_not_mem (by omega)⟩,
               List.count_eq_zero.1 hl0⟩)
        · split <;> rfl
      · have hl : jobId ∈ s.low := by
          rcases List.mem_append.1 hm with hq1 | hq2
          · rcases List.mem_append.1 hq1 with hq3 | hq4
            · exact absurd hq3 hh
            · exact absurd hq4 hn
          · exact hq2
        rw [if_neg hn, if_pos hl]
        have hh1 : 0 < s.low.count jobId := List.count_pos_iff.2 hl
        have hh0 : s.high.count jobId = 0 := by omega
        have hn0 : s.normal.count jobId = 0 := by omega
        dsimp only
        constructor
        · split <;>
            (simp only [queuedIds, List.mem_append, not_or]
             exact ⟨⟨List.count_eq_zero.1 hh0, List.count_eq_zero.1 hn0⟩,
               removeFirst_self_not_mem (by omega)⟩)
        · split <;> rfl
  · intro ha
    unfold cancelJob
    rw [if_pos ha]
    split
    · rfl
    · dsimp only
      split
      · rfl
      · exact Eq.trans (processNextJob_frame maxC now _).1 rfl

theorem cancellation_behavior_witness :
    ("H2" ∉ queuedIds (cancelJob 1 true true "t6" "H2" scenarioAfterSubmits).2 ∧
     (cancelJob 1 true true "t6" "H2" scenarioAfterSubmits).2.startedOrder =
       scenarioAfterSubmits.startedOrder) ∧
    (cancelJob 1 true true "t6" "H1" scenarioAfterSubmits).2.events =
      scenarioAfterSubmits.events :=
  ⟨(cancellation_behavior 1 true true "t6" "H2" scenarioAfterSubmits).1
     (by decide) (by decide) (by decide),
   (cancellation_behavior 1 true true "t6" "H1" scenarioAfterSubmits).2
     (by decide)⟩

/-- C7 counterexample: a successful cancellation of a processing job — a
state-relevant mutation (status, progress and message all change) — leaves
the event log untouched: `cancelJob` (lines 544-598) contains no
`emitSocketEvent` call, so no event is published for it. -/
theorem event_on_cancel_counterexample :
    (cancelJob 1 true true "t8" "J" sWithActive).1.success = true ∧
    (cancelJob 1 true true "t8" "J" sWithActive).2.events =
      sWithActive.events := by decide

/-- C7 amended: publishing failures are swallowed and never touch the
manager state; the progress-milestone and completion mutations each
publish a `job-update` event on the `job-{jobId}` channel carrying
`{jobId, status, progress, message}` — on a full successful run of a job
with one page the published sequence is exactly the six events below —
but the cancellation and failure paths publish no event at all. -/
theorem progress_event_behavior :
    (∀ (ev : SEvent) (s : ManagerState), emitSocketEvent false ev s = s) ∧
    (∀ (updOk : Bool) (id : String) (s : ManagerState) (job : Job),
      mapGet s.jobs id = some job →
      (workerBegin updOk true id s).events = s.events ++
        [{ room := "job-" ++ job.jobId, jobId := job.jobId
           status := job.status, progress := 10
           message := "Discovering pages" }]) ∧
    (∀ (maxC : Nat) (updOk dbFound : Bool) (now jobId : String)
        (s : ManagerState),
      (cancelJob maxC updOk dbFound now jobId s).2.events = s.events) ∧
    (workerRunPages 1 ["p"] sampleOutcomes none true true true "t2" "J"
      (workerBegin true true "J" sWithActive)).1.events =
      [{ room := "job-J", jobId := "J", status := .processing, progress := 10
         message := "Discovering pages" },
       { room := "job-J", jobId := "J", status := .processing, progress := 30
         message := "Extracting content" },
       { room := "job-J", jobId := "J", status := .processing, progress := 60
         message := "Extracted content from 1 of 1 pages" },
       { room := "job-J", jobId := "J", status := .processing, progress := 60
         message := "Extracting detailed information" },
       { room := "job-J", jobId := "J", status := .processing, progress := 80
         message := "Building final results" },
       { room := "job-J", jobId := "J", status := .complete, progress := 100
         message := "Scrape completed" }] := by
  refine ⟨?_, ?_, ?_, by decide⟩
  · intro ev s
    rfl
  · intro updOk id s job hj
    unfold workerBegin
    rw [hj]
    dsimp only
    split <;> rfl
  · intro maxC updOk dbFound now jobId s
    unfold cancelJob
    split
    · split
      · rfl
      · dsimp only
        split
        · rfl
        · exact Eq.trans (processNextJob_frame maxC now _).1 rfl
    · split
      · split <;> rfl
      · split
        · split <;> rfl
        · split
          · split <;> rfl
          · split
            · rfl
            · split <;> rfl

theorem progress_event_behavior_witness :
    emitSocketEvent false
      { room := "job-W", jobId := "W", status := .processing, progress := 10
        message := "Discovering pages" } initialState = initialState ∧
    (workerBegin true true "J" sWithActive).events = sWithActive.events ++
      [{ room := "job-J", jobId := "J", status := .processing, progress := 10
         message := "Discovering pages" }] :=
  ⟨progress_event_behavior.1
    { room := "job-W", jobId := "W", status := .processing, progress := 10
      message := "Discovering pages" } initialState,
   progress_event_behavior.2.1 true "J" sWithActive
    { jobId := "J", domain := "example.com", priority := .high
      maxPages := none, status := .processing, progress := 0
      message := "Job queued", startedAt := some "t0", completedAt := none }
    (by decide)⟩

/-- C9 counterexample: `processJob` does not invoke discovery with
`bypassCooldown` false in the normal case — the literal options object at
lines 199-203 always carries `bypassCooldown: true` (with the comment
`Bypass the 24-hour cooldown`), so the cooldown is never exercised by the
pipeline. -/
theorem cooldown_bypass_counterexample :
    (processJobDiscoveryOptions (mkJob "C" .normal)).bypassCooldown = true ∧
    (processJobDiscoveryOptions (mkJob "C" .normal)).cooldownMinutes = 5 :=
  ⟨rfl, rfl⟩

/-- C9 amended: the discovery engine (spec-modelled: `discoveryService` is
not among the sources) yields the previously stored page set — or an empty
set when none is stored — for a domain re-crawled within the cooldown when
`bypassCooldown` is false, with no fresh fetch; but `processJob` always
passes `bypassCooldown: true` (and `cooldownMinutes: 5`,
`maxPages: job.maxPages || 25`), so the normal pipeline path bypasses
the cooldown and always receives the fresh crawl. -/
theorem cooldown_spec_behavior :
    (∀ (opts : DiscoveryOptions) (stored : Option (List String))
        (fresh : List String), opts.bypassCooldown = false →
      discoverPagesSpec true opts stored fresh = stored.getD []) ∧
    (∀ (opts : DiscoveryOptions) (stored fresh : List String),
      opts.bypassCooldown = false →
      discoverPagesSpec true opts (some stored) fresh = stored) ∧
    (∀ (job : Job) (withinCooldown : Bool)
        (stored : Option (List String)) (fresh : List String),
      (processJobDiscoveryOptions job).bypassCooldown = true ∧
      (processJobDiscoveryOptions job).cooldownMinutes = 5 ∧
      (processJobDiscoveryOptions job).maxPages = job.maxPages.getD 25 ∧
      discoverPagesSpec withinCooldown (processJobDiscoveryOptions job)
        stored fresh = fresh) := by
  refine ⟨?_, ?_, ?_⟩
  · intro opts stored fresh h
    simp [discoverPagesSpec, h]
  · intro opts stored fresh h
    simp [discoverPagesSpec, h]
  · intro job withinCooldown stored fresh
    refine ⟨rfl, rfl, rfl, ?_⟩
    simp [discoverPagesSpec, processJobDiscoveryOptions]

theorem cooldown_spec_behavior_witness :
    discoverPagesSpec true
      { maxPages := 25, bypassCooldown := false, cooldownMinutes := 5 }
      (some ["https://example.com/"]) ["https://example.com/fresh"] =
      ["https://example.com/"] ∧
    discoverPagesSpec true (processJobDiscoveryOptions (mkJob "W9" .normal))
      (some ["https://example.com/"]) ["https://example.com/fresh"] =
      ["https://example.com/fresh"] :=
  ⟨cooldown_spec_behavior.2.1
    { maxPages := 25, bypassCooldown := false, cooldownMinutes := 5 }
    ["https://example.com/"] ["https://example.com/fresh"] rfl,
   (cooldown_spec_behavior.2.2 (mkJob "W9" .normal) true
    (some ["https://example.com/"]) ["https://example.com/fresh"]).2.2.2⟩

end DiscoveryCrawler
